import Mathlib

/-!
Verification development for the sasha/matei conversation dashboards.
The definitions below are shallow embeddings of the client-side filter
engine, the list delete update, and the server endpoints, translated
from the TypeScript sources. Machine numbers are modelled as Int, JS
falsiness of optional strings is modelled explicitly, and the current
time (Date.now in seconds) is passed as an explicit argument.
-/

/-- ASCII apostrophe, used inside string literals copied from the source. -/
def apos : String := String.singleton (Char.ofNat 39)

/-- JS truthiness of an optional string: undefined and the empty string are falsy. -/
def jsTruthyStr (o : Option String) : Bool :=
  match o with
  | none => false
  | some s => s ≠ ""

/-- JS expression o \x7c\x7c d for an optional string o: falls back on undefined and on the empty string. -/
def jsOr (o : Option String) (d : String) : String :=
  match o with
  | none => d
  | some s => if s = "" then d else s

/-- Conversation summary record, from the Conversation interface of the dashboards. -/
structure Conversation where
  agent_id : String
  agent_name : String
  conversation_id : String
  start_time_unix_secs : Int
  call_duration_secs : Int
  message_count : Int
  status : String
  call_successful : String
  transcript_summary : Option String
  call_summary_title : Option String
deriving DecidableEq, Repr

/-- View mode of the dashboard list: the source uses the strings last and all. -/
inductive ViewMode where
  | last : ViewMode
  | all : ViewMode
deriving DecidableEq, Repr

/-- The filter criteria state of the dashboard page. -/
structure FilterCriteria where
  searchTerm : String
  statusFilter : String
  agentFilter : String
  successFilter : String
  dateFilter : String
  viewMode : ViewMode
deriving DecidableEq, Repr

/-- pat occurs as a contiguous block inside l, checked position by position. -/
def listHasInfix (pat : List Char) : List Char → Bool
  | [] => pat.isEmpty
  | c :: t => pat.isPrefixOf (c :: t) || listHasInfix pat t

/-- Plain substring test: pat occurs inside s, as JS String.includes. -/
def containsSub (s pat : String) : Bool :=
  listHasInfix pat.data s.data

/-- JS toUpperCase, modelled character by character. -/
def jsToUpperCase (s : String) : String := ⟨s.data.map Char.toUpper⟩

/-- JS toLowerCase, modelled character by character. -/
def jsToLowerCase (s : String) : String := ⟨s.data.map Char.toLower⟩

/-- The search predicate of applyFilters: case-insensitive substring match of the
search term against the optional title or the agent name; a missing title
short-circuits to false as the optional chaining in the source does. -/
def matchesSearch (term : String) (c : Conversation) : Bool :=
  (match c.call_summary_title with
   | some t => containsSub (jsToLowerCase t) (jsToLowerCase term)
   | none => false)
  || containsSub (jsToLowerCase c.agent_name) (jsToLowerCase term)

/-- The cutoff lookup of applyFilters: today, week and month map to now minus
86400, 7 by 86400 and 30 by 86400 seconds; every other key is absent. -/
def dateCutoff (dateFilter : String) (now : Int) : Option Int :=
  if dateFilter = "today" then some (now - 24 * 60 * 60)
  else if dateFilter = "week" then some (now - 7 * 24 * 60 * 60)
  else if dateFilter = "month" then some (now - 30 * 24 * 60 * 60)
  else none

/-- applyFilters of the dashboard page: in last mode the head of the list alone;
otherwise the conjunction of search, status, agent, success and date filters.
The date branch keeps the JS falsiness of the cutoff: a cutoff equal to zero
disables the date filter, as if (cutoff) does in the source. -/
def applyFilters (conversations : List Conversation) (crit : FilterCriteria) (now : Int) : List Conversation :=
  if crit.viewMode = ViewMode.last then
    match conversations with
    | [] => []
    | c :: _ => [c]
  else
    let f1 := if crit.searchTerm = "" then conversations
              else conversations.filter (fun c => matchesSearch crit.searchTerm c)
    let f2 := if crit.statusFilter = "all" then f1
              else f1.filter (fun c => c.status == crit.statusFilter)
    let f3 := if crit.agentFilter = "all" then f2
              else f2.filter (fun c => c.agent_name == crit.agentFilter)
    let f4 := if crit.successFilter = "all" then f3
              else f3.filter (fun c => c.call_successful == crit.successFilter)
    let f5 := if crit.dateFilter = "all" then f4
              else
                match dateCutoff crit.dateFilter now with
                | none => f4
                | some cutoff =>
                  if cutoff = 0 then f4
                  else f4.filter (fun c => decide (cutoff ≤ c.start_time_unix_secs))
    f5

/-- The successful-delete list update of deleteConversation: keep every
conversation whose id differs from the deleted one. -/
def deleteConversationUpdate (L : List Conversation) (conversationId : String) : List Conversation :=
  L.filter (fun conv => conv.conversation_id != conversationId)

/-- Constructor shorthand for concrete conversations in witnesses. -/
def mkConv (cid agentName : String) (title : Option String) (status succ : String) (start : Int) : Conversation :=
  ⟨"agent", agentName, cid, start, 0, 0, status, succ, none, title⟩

/-- A transcript turn as the endpoints consume it. -/
structure TranscriptTurn where
  role : String
  message : String
  time_in_call_secs : Int
deriving DecidableEq, Repr

/-- A candidate of the generative-text provider, reduced to the texts of its
content parts. -/
structure GeminiCandidate where
  parts : List String
deriving DecidableEq, Repr

/-- The optional-chaining extraction candidates[0].content.parts[0].text used by
the endpoints: the text of the first part of the first candidate, if present. -/
def firstCandidateText (candidates : List GeminiCandidate) : Option String :=
  match candidates with
  | [] => none
  | c :: _ => c.parts.head?

/-- The shared transcript formatting of the analyze and generate-summary
endpoints: one role-tagged line per turn, joined by blank lines. -/
def formatTranscript (transcript : List TranscriptTurn) : String :=
  String.intercalate "\n\n"
    (transcript.map (fun turn => jsToUpperCase turn.role ++ ": " ++ turn.message))

/-- The prompt of the analyze endpoint, embedding the formatted transcript and
the question. -/
def analyzePrompt (transcript : List TranscriptTurn) (question : String) : String :=
  "Based on the following conversation transcript, please answer the user" ++ apos ++
    "s question accurately and concisely.\n\nTRANSCRIPT:\n" ++
    formatTranscript transcript ++ "\n\nQUESTION: " ++ question ++
    "\n\nPlease provide a helpful answer based only on the information available in the transcript above."

/-- The prompt of the sasha generate-summary endpoint. -/
def summaryPrompt (transcript : List TranscriptTurn) : String :=
  "Based on the following conversation transcript, please generate exactly 3 main takeaways from this conversation. Format your response as a simple numbered list.\n\nTRANSCRIPT:\n" ++
    formatTranscript transcript ++
    "\n\nPlease provide exactly 3 main takeaways in this format:\n1. [First main takeaway]\n2. [Second main takeaway] \n3. [Third main takeaway]\n\nKeep each takeaway concise but informative, focusing on the most important points, decisions, or insights from the conversation."

/-- The prompt of the gemini-template endpoint, embedding the discussion content. -/
def templatePrompt (discussionContent : String) : String :=
  "Please analyze and provide additional insights for this One-on-One Prep Discussion:\n\n" ++
    discussionContent ++
    "\n\nProvide detailed next steps, potential challenges, and recommendations for implementation. Format your response in a structured way with clear sections."

/-- Observable outcome of the analyze endpoint: HTTP status, answer and error
body fields, and the prompt of the provider request if one was issued. -/
structure AnalyzeResult where
  status : Nat
  answer : Option String
  error : Option String
  sentPrompt : Option String
deriving DecidableEq, Repr

/-- POST /api/analyze: guard the API key, guard the two required body fields
with JS truthiness, then issue the provider request; on provider success the
answer is the first candidate text or the fixed fallback. -/
def analyzeRoute (apiKey : Option String) (transcript : Option (List TranscriptTurn))
    (question : Option String) (providerOk : Bool)
    (candidates : List GeminiCandidate) : AnalyzeResult :=
  if !(jsTruthyStr apiKey) then
    ⟨500, none, some "Gemini API key not configured", none⟩
  else
    match transcript, question with
    | none, _ => ⟨400, none, some "Transcript and question are required", none⟩
    | some _, none => ⟨400, none, some "Transcript and question are required", none⟩
    | some ts, some q =>
      if q = "" then ⟨400, none, some "Transcript and question are required", none⟩
      else
        let prompt := analyzePrompt ts q
        if !providerOk then ⟨500, none, some "Failed to analyze transcript", some prompt⟩
        else ⟨200, some (jsOr (firstCandidateText candidates) "No answer generated"),
          none, some prompt⟩

/-- Observable outcome of the generate-summary endpoint. -/
structure SummaryResult where
  status : Nat
  summary : Option String
  error : Option String
  sentPrompt : Option String
deriving DecidableEq, Repr

/-- POST /api/generate-summary of the sasha dashboard: guard the API key, guard
the transcript field with JS truthiness (an empty array is truthy and passes),
then issue the provider request; on provider success the summary is the first
candidate text or the fixed fallback. -/
def generateSummaryRoute (apiKey : Option String) (transcript : Option (List TranscriptTurn))
    (providerOk : Bool) (candidates : List GeminiCandidate) : SummaryResult :=
  if !(jsTruthyStr apiKey) then
    ⟨500, none, some "Gemini API key not configured", none⟩
  else
    match transcript with
    | none => ⟨400, none, some "Transcript is required", none⟩
    | some ts =>
      let prompt := summaryPrompt ts
      if !providerOk then ⟨500, none, some "Failed to generate summary", some prompt⟩
      else ⟨200, some (jsOr (firstCandidateText candidates) "No summary generated"),
        none, some prompt⟩

/-- Observable outcome of the gemini-template endpoint. -/
structure TemplateResult where
  status : Nat
  analysis : Option String
  error : Option String
  sentPrompt : Option String
deriving DecidableEq, Repr

/-- POST /api/gemini-template: guard the discussion content, then the API key,
then issue the provider request; the candidate extraction is strict, so a
missing first candidate or first part raises and is caught as a 500. -/
def geminiTemplateRoute (discussionContent : Option String) (apiKey : Option String)
    (providerOk : Bool) (candidates : List GeminiCandidate) : TemplateResult :=
  if !(jsTruthyStr discussionContent) then
    ⟨400, none, some "Discussion content is required", none⟩
  else if !(jsTruthyStr apiKey) then
    ⟨500, none, some "Gemini API key not configured", none⟩
  else
    let prompt := templatePrompt (jsOr discussionContent "")
    if !providerOk then ⟨500, none, some "Failed to generate template", some prompt⟩
    else
      match firstCandidateText candidates with
      | none => ⟨500, none, some "Failed to generate template", some prompt⟩
      | some t => ⟨200, some t, none, some prompt⟩

/-- The environment variables read by the two space-fact-email endpoints. -/
structure EmailEnv where
  GEMINI_API_KEY : Option String
  MAILGUN_API_KEY : Option String
  EMAIL_RECIPIENTS : Option String
  EMAIL_SUBJECT : Option String
deriving DecidableEq, Repr

/-- The request body of the space-fact-email endpoints; the recipient field may
be absent. -/
structure SpaceFactRequest where
  conversationId : String
  recipient : Option String
deriving DecidableEq, Repr

/-- A message submitted to the transactional email provider. -/
structure MailgunMessage where
  sender : String
  toAddress : String
  subject : String
  text : String
deriving DecidableEq, Repr

/-- Observable outcome of a space-fact-email endpoint: HTTP status, the body
fields, the email submissions attempted, and how many outbound calls were made.
The summary field holds the summary of the sasha endpoint and the space fact
of the matei endpoint. -/
structure EmailOutcome where
  status : Nat
  success : Bool
  error : Option String
  summary : Option String
  recipient : Option String
  sent : List MailgunMessage
  outboundCalls : Nat
deriving DecidableEq, Repr

/-- The body of the sasha agenda email; a missing request recipient is
interpolated by JS as the string undefined. -/
def sashaEmailBody (recipientRaw : Option String) (summary dateStr : String) : String :=
  "Dear " ++ (match recipientRaw with | some s => s | none => "undefined") ++
    ",\n\nI hope this email finds you well! Here are some ideas that I wanted to share about talking to you in our meeting:\n\n" ++
    summary ++
    "\n\nLooking forward to our discussion!\n\nBest regards,\nSasha\n\n---\nMeeting prep from conversation on " ++
    dateStr

/-- POST /api/space-fact-email of the sasha dashboard: guard the three required
environment values with JS truthiness before any outbound call, then fetch the
conversation, generate a summary, and submit the email; the address and the
response recipient are the request recipient with JS fallback to the
EMAIL_RECIPIENTS environment value. The upstream results are passed as
arguments; dateStr stands for the formatted current date. -/
def sashaSpaceFactEmail (env : EmailEnv) (req : SpaceFactRequest)
    (convFetchOk summaryOk : Bool) (summaryField : Option String) (mailgunOk : Bool)
    (dateStr : String) : EmailOutcome :=
  if !(jsTruthyStr env.GEMINI_API_KEY) || !(jsTruthyStr env.MAILGUN_API_KEY) ||
      !(jsTruthyStr env.EMAIL_RECIPIENTS) then
    ⟨500, false, some "Required API keys or email configuration not found", none, none, [], 0⟩
  else if !convFetchOk then
    ⟨500, false, some "Failed to send meeting agenda email", none, none, [], 1⟩
  else if !summaryOk then
    ⟨500, false, some "Failed to send meeting agenda email", none, none, [], 2⟩
  else
    let summary := jsOr summaryField "Unable to generate meeting agenda at this time."
    let toAddr := jsOr req.recipient (env.EMAIL_RECIPIENTS.getD "")
    let msg : MailgunMessage :=
      ⟨"Sasha <arihant@ai.complete.city>", toAddr, "Agenda for Our Upcoming Meeting",
        sashaEmailBody req.recipient summary dateStr⟩
    if !mailgunOk then
      ⟨500, false, some "Failed to send meeting agenda email", none, none, [msg], 3⟩
    else
      ⟨200, true, none, some summary, some toAddr, [msg], 3⟩

/-- The body of the matei space-fact email. -/
def mateiEmailBody (spaceFact conversationId timestamp : String) : String :=
  "Here" ++ apos ++ "s your fascinating space fact:\n\n" ++ spaceFact ++
    "\n\nThis email was triggered by a conversation interaction (ID: " ++
    conversationId ++ ") at " ++ timestamp ++
    ".\n\nSent with love from Arihant" ++ apos ++ "s automated system! 🚀"

/-- POST /api/space-fact-email of the matei dashboard: guard the three required
environment values, generate a space fact, and submit the email to the
EMAIL_RECIPIENTS environment value; the request recipient field is never read.
The upstream results are passed as arguments; timestamp stands for the
formatted current time. -/
def mateiSpaceFactEmail (env : EmailEnv) (req : SpaceFactRequest)
    (geminiOk : Bool) (candidates : List GeminiCandidate) (mailgunOk : Bool)
    (timestamp : String) : EmailOutcome :=
  if !(jsTruthyStr env.GEMINI_API_KEY) || !(jsTruthyStr env.MAILGUN_API_KEY) ||
      !(jsTruthyStr env.EMAIL_RECIPIENTS) then
    ⟨500, false, some "Required API keys or email configuration not found", none, none, [], 0⟩
  else if !geminiOk then
    ⟨500, false, some "Failed to send space fact email", none, none, [], 1⟩
  else
    let spaceFact := jsOr (firstCandidateText candidates) "The universe is vast and full of wonders!"
    let toAddr := env.EMAIL_RECIPIENTS.getD ""
    let msg : MailgunMessage :=
      ⟨"Arihant" ++ apos ++ "s Agent <arihant@ai.complete.city>", toAddr,
        jsOr env.EMAIL_SUBJECT "🌌 Your Space Fact",
        mateiEmailBody spaceFact req.conversationId timestamp⟩
    if !mailgunOk then
      ⟨500, false, some "Failed to send space fact email", none, none, [msg], 2⟩
    else
      ⟨200, true, none, some spaceFact, some toAddr, [msg], 2⟩

/-- The two-turn transcript of the deadline scenario. -/
def deadlineTranscript : List TranscriptTurn :=
  [⟨"user", "What is the deadline?", 0⟩, ⟨"agent", "Next Friday.", 1⟩]

/-- The question of the deadline scenario. -/
def deadlineQuestion : String := "When is the deadline?"

/-- A provider candidate whose first part carries the empty string as text. -/
def emptyTextCandidate : GeminiCandidate := ⟨[""]⟩

/-- A fully configured environment for witnesses. -/
def envFull : EmailEnv :=
  ⟨some "gm-key", some "mg-key", some "team@example.com", some "Subject"⟩

/-- An environment missing the Gemini key. -/
def envNoGemini : EmailEnv :=
  ⟨none, some "mg-key", some "team@example.com", some "Subject"⟩

/-- A request that omits the recipient field. -/
def reqNoRecipient : SpaceFactRequest := ⟨"conv-1", none⟩

/-- A request that carries a recipient. -/
def reqWithRecipient : SpaceFactRequest := ⟨"conv-1", some "other@example.com"⟩

/-- Criteria with every selector neutral except the date range set to today. -/
def critToday : FilterCriteria := ⟨"", "all", "all", "all", "today", ViewMode.all⟩

/-- Criteria with every selector neutral and view mode all. -/
def critNeutral : FilterCriteria := ⟨"", "all", "all", "all", "all", ViewMode.all⟩

/-- Criteria in latest view mode. -/
def critLatest : FilterCriteria := ⟨"", "all", "all", "all", "all", ViewMode.last⟩

/-- The list is sorted descending by start time, as the list controller stores it. -/
def SortedByStartDesc (L : List Conversation) : Prop :=
  L.Pairwise (fun a b => b.start_time_unix_secs ≤ a.start_time_unix_secs)

/-- A concrete conversation that started at Unix second 86400. -/
def convAtDayOne : Conversation := mkConv "a" "x" none "done" "success" 86400

/-- A conversation listed first but with the smaller start time. -/
def convEarlyHead : Conversation := mkConv "a" "x" none "done" "success" 0

/-- A conversation listed second but with the larger start time. -/
def convLateTail : Conversation := mkConv "b" "x" none "done" "success" 1

/-- A conversation used to build a list with a duplicated identifier. -/
def convDupId : Conversation := mkConv "dup" "x" none "done" "success" 0

/-- C1 counterexample: applyFilters depends on the clock, not only on the
conversation list and the criteria. With the date range set to today, the same
list and the same criteria produce different outputs at two invocation times. -/
theorem applyFilters_not_time_independent :
    applyFilters [convAtDayOne] critToday 100000 ≠
      applyFilters [convAtDayOne] critToday 200000 := by decide

/-- C1 (amended): the filtered list is a deterministic function of the
conversation list, the criteria and the invocation time; whenever the date
range selector is all, or the view mode is latest, the output is moreover
independent of the invocation time. -/
theorem applyFilters_deterministic_given_time (L : List Conversation) (C : FilterCriteria)
    (now₁ now₂ : Int) (h : C.dateFilter = "all" ∨ C.viewMode = ViewMode.last) :
    applyFilters L C now₁ = applyFilters L C now₂ := by
  rcases h with h | h
  · simp [applyFilters, h]
  · simp [applyFilters, h]

/-- C1 witness: the amended determinism theorem applied at a concrete input. -/
theorem applyFilters_deterministic_given_time_witness :
    applyFilters [convAtDayOne] critNeutral 100000 =
      applyFilters [convAtDayOne] critNeutral 200000 :=
  applyFilters_deterministic_given_time [convAtDayOne] critNeutral 100000 200000 (Or.inl rfl)

/-- C2 counterexample: in latest view mode applyFilters returns the head of the
list, not the element with the maximum start time, so on an unsorted list the
claimed maximality fails. -/
theorem applyFilters_latest_not_max :
    applyFilters [convEarlyHead, convLateTail] critLatest 0 = [convEarlyHead] ∧
    ¬ (∀ x ∈ applyFilters [convEarlyHead, convLateTail] critLatest 0,
        ∀ y ∈ [convEarlyHead, convLateTail],
          y.start_time_unix_secs ≤ x.start_time_unix_secs) := by decide

/-- C2 (amended): in latest view mode applyFilters returns at most one element,
namely exactly the first element of the list when it is non-empty and the empty
list otherwise; when the list is sorted descending by start time, as the list
controller guarantees, the returned element attains the maximum start time;
and every other criterion and the invocation time are ignored in this mode. -/
theorem applyFilters_latest_mode (L : List Conversation) (C : FilterCriteria) (now : Int)
    (hvm : C.viewMode = ViewMode.last) :
    (applyFilters L C now).length ≤ 1 ∧
    (∀ (a : Conversation) (t : List Conversation), L = a :: t →
      applyFilters L C now = [a]) ∧
    (L = [] → applyFilters L C now = []) ∧
    (SortedByStartDesc L → ∀ x ∈ applyFilters L C now, x ∈ L ∧
      ∀ y ∈ L, y.start_time_unix_secs ≤ x.start_time_unix_secs) ∧
    (∀ C' : FilterCriteria, ∀ now' : Int, C'.viewMode = ViewMode.last →
      applyFilters L C' now' = applyFilters L C now) := by
  refine ⟨?_, ?_, ?_, ?_, ?_⟩
  · cases L <;> simp [applyFilters, hvm]
  · intro a t hL
    subst hL
    simp [applyFilters, hvm]
  · intro hL
    subst hL
    simp [applyFilters, hvm]
  · intro hs x hx
    cases L with
    | nil => simp [applyFilters, hvm] at hx
    | cons a t =>
      simp [applyFilters, hvm] at hx
      subst hx
      refine ⟨List.mem_cons_self _ _, ?_⟩
      intro y hy
      rcases List.mem_cons.mp hy with rfl | hyt
      · exact le_refl _
      · exact (List.pairwise_cons.mp hs).1 y hyt
  · intro C' now' h'
    cases L <;> simp [applyFilters, hvm, h']

/-- C2 witness: the amended latest-mode theorem applied to a concrete list. -/
theorem applyFilters_latest_mode_witness :
    (applyFilters [convAtDayOne] critLatest 0).length ≤ 1 ∧
    (∀ (a : Conversation) (t : List Conversation), [convAtDayOne] = a :: t →
      applyFilters [convAtDayOne] critLatest 0 = [a]) ∧
    (([convAtDayOne] : List Conversation) = [] →
      applyFilters [convAtDayOne] critLatest 0 = []) ∧
    (SortedByStartDesc [convAtDayOne] →
      ∀ x ∈ applyFilters [convAtDayOne] critLatest 0, x ∈ [convAtDayOne] ∧
        ∀ y ∈ [convAtDayOne], y.start_time_unix_secs ≤ x.start_time_unix_secs) ∧
    (∀ C' : FilterCriteria, ∀ now' : Int, C'.viewMode = ViewMode.last →
      applyFilters [convAtDayOne] C' now' = applyFilters [convAtDayOne] critLatest 0) :=
  applyFilters_latest_mode [convAtDayOne] critLatest 0 rfl

/-- C3 counterexample: the delete update removes every element carrying the
deleted identifier, so on a list with a duplicated identifier it removes two
elements, not exactly one. -/
theorem deleteConversationUpdate_removes_duplicates :
    deleteConversationUpdate [convDupId, convDupId] "dup" = [] ∧
    ([convDupId, convDupId] : List Conversation).length = 2 := by decide

/-- C3 (amended): the delete update keeps exactly the elements whose identifier
differs from the deleted one, preserving their relative order; when exactly one
element of the list carries the identifier it removes exactly one element; and
when no element carries it the list is unchanged. -/
theorem deleteConversationUpdate_spec (L : List Conversation) (x : String) :
    (deleteConversationUpdate L x).Sublist L ∧
    (∀ c ∈ deleteConversationUpdate L x, c.conversation_id ≠ x) ∧
    (∀ c ∈ L, c.conversation_id ≠ x → c ∈ deleteConversationUpdate L x) ∧
    (L.countP (fun c => c.conversation_id == x) = 1 →
      (deleteConversationUpdate L x).length + 1 = L.length) ∧
    ((∀ c ∈ L, c.conversation_id ≠ x) → deleteConversationUpdate L x = L) := by
  refine ⟨List.filter_sublist L, ?_, ?_, ?_, ?_⟩
  · intro c hc
    have := (List.mem_filter.mp hc).2
    simpa using this
  · intro c hc hne
    exact List.mem_filter.mpr ⟨hc, by simpa using hne⟩
  · intro hcount
    have hsplit := @List.length_eq_length_filter_add Conversation L
      (fun c => c.conversation_id == x)
    have h1 : (L.filter (fun c => c.conversation_id == x)).length = 1 := by
      rw [← List.countP_eq_length_filter]; exact hcount
    have h2 : (L.filter (fun c => !(c.conversation_id == x))).length =
        (deleteConversationUpdate L x).length := rfl
    omega
  · intro hall
    refine List.filter_eq_self.mpr ?_
    intro c hc
    simpa using hall c hc

/-- C3 witness: the amended delete theorem applied to a concrete two-element
list containing exactly one occurrence of the deleted identifier. -/
theorem deleteConversationUpdate_spec_witness :
    (deleteConversationUpdate [convEarlyHead, convLateTail] "a").Sublist
        [convEarlyHead, convLateTail] ∧
    (∀ c ∈ deleteConversationUpdate [convEarlyHead, convLateTail] "a",
      c.conversation_id ≠ "a") ∧
    (∀ c ∈ [convEarlyHead, convLateTail], c.conversation_id ≠ "a" →
      c ∈ deleteConversationUpdate [convEarlyHead, convLateTail] "a") ∧
    (([convEarlyHead, convLateTail] : List Conversation).countP
        (fun c => c.conversation_id == "a") = 1 →
      (deleteConversationUpdate [convEarlyHead, convLateTail] "a").length + 1 =
        ([convEarlyHead, convLateTail] : List Conversation).length) ∧
    ((∀ c ∈ [convEarlyHead, convLateTail], c.conversation_id ≠ "a") →
      deleteConversationUpdate [convEarlyHead, convLateTail] "a" =
        [convEarlyHead, convLateTail]) :=
  deleteConversationUpdate_spec [convEarlyHead, convLateTail] "a"

/-- C4: with neutral criteria, the date range boundary is inclusive of the
cutoff instant: under today a conversation at now - 86400 is kept and one at
now - 86401 is dropped; the week and month windows are exactly 7 by 86400 and
30 by 86400 seconds; and all imposes no bound. The hypothesis on now rules out
the degenerate clock values at which the JS falsiness of a zero cutoff would
disable the filter; any real invocation time satisfies it. -/
theorem applyFilters_dateRange_boundary (conv : Conversation) (C : FilterCriteria) (now : Int)
    (hnow : 2592000 < now)
    (hvm : C.viewMode = ViewMode.all) (hsearch : C.searchTerm = "")
    (hstatus : C.statusFilter = "all") (hagent : C.agentFilter = "all")
    (hsucc : C.successFilter = "all") :
    (C.dateFilter = "today" →
      (applyFilters [conv] C now =
        if now - 86400 ≤ conv.start_time_unix_secs then [conv] else []) ∧
      (conv.start_time_unix_secs = now - 86400 → applyFilters [conv] C now = [conv]) ∧
      (conv.start_time_unix_secs = now - 86401 → applyFilters [conv] C now = [])) ∧
    (C.dateFilter = "week" →
      applyFilters [conv] C now =
        if now - 604800 ≤ conv.start_time_unix_secs then [conv] else []) ∧
    (C.dateFilter = "month" →
      applyFilters [conv] C now =
        if now - 2592000 ≤ conv.start_time_unix_secs then [conv] else []) ∧
    (C.dateFilter = "all" → applyFilters [conv] C now = [conv]) := by
  refine ⟨?_, ?_, ?_, ?_⟩
  · intro hdate
    have hne : ¬(now - 86400 = 0) := by omega
    refine ⟨?_, ?_, ?_⟩
    · simp only [applyFilters, hvm, hsearch, hstatus, hagent, hsucc, hdate, dateCutoff, hne,
        List.filter]
      by_cases hc : now - 86400 ≤ conv.start_time_unix_secs
      · have hc2 : now ≤ conv.start_time_unix_secs + 86400 := by omega
        simp [hc, hc2]
      · have hc2 : ¬(now ≤ conv.start_time_unix_secs + 86400) := by omega
        simp [hc, hc2, hne]
    · intro hstart
      have hle : now ≤ conv.start_time_unix_secs + 86400 := by omega
      simp [applyFilters, hvm, hsearch, hstatus, hagent, hsucc, hdate, dateCutoff, hne,
        List.filter, hle]
    · intro hstart
      have hlt : ¬(now ≤ conv.start_time_unix_secs + 86400) := by omega
      simp [applyFilters, hvm, hsearch, hstatus, hagent, hsucc, hdate, dateCutoff, hne,
        List.filter, hlt]
  · intro hdate
    have hne : ¬(now - 604800 = 0) := by omega
    simp only [applyFilters, hvm, hsearch, hstatus, hagent, hsucc, hdate, dateCutoff, hne,
      List.filter]
    by_cases hc : now - 604800 ≤ conv.start_time_unix_secs
    · have hc2 : now ≤ conv.start_time_unix_secs + 604800 := by omega
      simp [hc, hc2]
    · have hc2 : ¬(now ≤ conv.start_time_unix_secs + 604800) := by omega
      simp [hc, hc2, hne]
  · intro hdate
    have hne : ¬(now - 2592000 = 0) := by omega
    simp only [applyFilters, hvm, hsearch, hstatus, hagent, hsucc, hdate, dateCutoff, hne,
      List.filter]
    by_cases hc : now - 2592000 ≤ conv.start_time_unix_secs
    · have hc2 : now ≤ conv.start_time_unix_secs + 2592000 := by omega
      simp [hc, hc2]
    · have hc2 : ¬(now ≤ conv.start_time_unix_secs + 2592000) := by omega
      simp [hc, hc2, hne]
  · intro hdate
    simp [applyFilters, hvm, hsearch, hstatus, hagent, hsucc, hdate]

/-- C4 witness: the boundary theorem applied at a concrete clock value. -/
theorem applyFilters_dateRange_boundary_witness :
    (critToday.dateFilter = "today" →
      (applyFilters [convAtDayOne] critToday 10000000 =
        if (10000000 : Int) - 86400 ≤ convAtDayOne.start_time_unix_secs
        then [convAtDayOne] else []) ∧
      (convAtDayOne.start_time_unix_secs = 10000000 - 86400 →
        applyFilters [convAtDayOne] critToday 10000000 = [convAtDayOne]) ∧
      (convAtDayOne.start_time_unix_secs = 10000000 - 86401 →
        applyFilters [convAtDayOne] critToday 10000000 = [])) ∧
    (critToday.dateFilter = "week" →
      applyFilters [convAtDayOne] critToday 10000000 =
        if (10000000 : Int) - 604800 ≤ convAtDayOne.start_time_unix_secs
        then [convAtDayOne] else []) ∧
    (critToday.dateFilter = "month" →
      applyFilters [convAtDayOne] critToday 10000000 =
        if (10000000 : Int) - 2592000 ≤ convAtDayOne.start_time_unix_secs
        then [convAtDayOne] else []) ∧
    (critToday.dateFilter = "all" →
      applyFilters [convAtDayOne] critToday 10000000 = [convAtDayOne]) :=
  applyFilters_dateRange_boundary convAtDayOne critToday 10000000 (by decide)
    rfl rfl rfl rfl rfl

/-- C8: with view mode all, an empty search term and every selector set to all,
applyFilters is the identity on the conversation list, in the order given. -/
theorem applyFilters_neutral_identity (L : List Conversation) (C : FilterCriteria) (now : Int)
    (hvm : C.viewMode = ViewMode.all) (hsearch : C.searchTerm = "")
    (hstatus : C.statusFilter = "all") (hagent : C.agentFilter = "all")
    (hsucc : C.successFilter = "all") (hdate : C.dateFilter = "all") :
    applyFilters L C now = L := by
  simp [applyFilters, hvm, hsearch, hstatus, hagent, hsucc, hdate]

/-- C8 witness: the identity theorem applied to a concrete list and criteria. -/
theorem applyFilters_neutral_identity_witness :
    applyFilters [convEarlyHead, convLateTail] critNeutral 0 = [convEarlyHead, convLateTail] :=
  applyFilters_neutral_identity [convEarlyHead, convLateTail] critNeutral 0
    rfl rfl rfl rfl rfl rfl

/-- C5: for the sasha email endpoint, an environment missing any of the Gemini
key, the Mailgun key or the recipients value yields a 500 with the explicit
not-found message and zero outbound calls; and with a configured environment,
a request that omits the recipient field produces email submissions addressed
to the EMAIL_RECIPIENTS environment value, which is also the recipient field
of a success response. -/
theorem sashaSpaceFactEmail_env_guard_and_fallback :
    (∀ (env : EmailEnv) (req : SpaceFactRequest) (convFetchOk summaryOk : Bool)
        (summaryField : Option String) (mailgunOk : Bool) (dateStr : String),
      (env.GEMINI_API_KEY = none ∨ env.MAILGUN_API_KEY = none ∨
        env.EMAIL_RECIPIENTS = none) →
      (sashaSpaceFactEmail env req convFetchOk summaryOk summaryField mailgunOk
          dateStr).status = 500 ∧
      (sashaSpaceFactEmail env req convFetchOk summaryOk summaryField mailgunOk
          dateStr).error = some "Required API keys or email configuration not found" ∧
      (sashaSpaceFactEmail env req convFetchOk summaryOk summaryField mailgunOk
          dateStr).outboundCalls = 0 ∧
      (sashaSpaceFactEmail env req convFetchOk summaryOk summaryField mailgunOk
          dateStr).sent = []) ∧
    (∀ (env : EmailEnv) (req : SpaceFactRequest) (convFetchOk summaryOk : Bool)
        (summaryField : Option String) (mailgunOk : Bool) (dateStr : String) (r : String),
      env.EMAIL_RECIPIENTS = some r → req.recipient = none →
      (∀ m ∈ (sashaSpaceFactEmail env req convFetchOk summaryOk summaryField mailgunOk
          dateStr).sent, m.toAddress = r) ∧
      ((sashaSpaceFactEmail env req convFetchOk summaryOk summaryField mailgunOk
          dateStr).status = 200 →
        (sashaSpaceFactEmail env req convFetchOk summaryOk summaryField mailgunOk
          dateStr).recipient = some r)) := by
  constructor
  · intro env req convFetchOk summaryOk summaryField mailgunOk dateStr h
    have hg : (!(jsTruthyStr env.GEMINI_API_KEY) || !(jsTruthyStr env.MAILGUN_API_KEY) ||
        !(jsTruthyStr env.EMAIL_RECIPIENTS)) = true := by
      rcases h with h | h | h <;> simp [h, jsTruthyStr]
    simp [sashaSpaceFactEmail, hg]
  · intro env req convFetchOk summaryOk summaryField mailgunOk dateStr r hr hrec
    by_cases hg : (!(jsTruthyStr env.GEMINI_API_KEY) || !(jsTruthyStr env.MAILGUN_API_KEY) ||
        !(jsTruthyStr env.EMAIL_RECIPIENTS)) = true
    · simp [sashaSpaceFactEmail, hg]
    · cases convFetchOk <;> cases summaryOk <;> cases mailgunOk <;>
        simp_all [sashaSpaceFactEmail, jsOr, hr, hrec, Option.getD]

/-- C5 witness: the guard and fallback theorem at concrete inputs. -/
theorem sashaSpaceFactEmail_env_guard_and_fallback_witness :
    ((sashaSpaceFactEmail envNoGemini reqWithRecipient true true (some "S") true "d").status
        = 500 ∧
      (sashaSpaceFactEmail envNoGemini reqWithRecipient true true (some "S") true "d").error
        = some "Required API keys or email configuration not found" ∧
      (sashaSpaceFactEmail envNoGemini reqWithRecipient true true (some "S") true
          "d").outboundCalls = 0 ∧
      (sashaSpaceFactEmail envNoGemini reqWithRecipient true true (some "S") true "d").sent
        = []) ∧
    ((∀ m ∈ (sashaSpaceFactEmail envFull reqNoRecipient true true (some "S") true "d").sent,
        m.toAddress = "team@example.com") ∧
      ((sashaSpaceFactEmail envFull reqNoRecipient true true (some "S") true "d").status
          = 200 →
        (sashaSpaceFactEmail envFull reqNoRecipient true true (some "S") true "d").recipient
          = some "team@example.com")) :=
  ⟨sashaSpaceFactEmail_env_guard_and_fallback.1 envNoGemini reqWithRecipient true true
      (some "S") true "d" (Or.inl rfl),
    sashaSpaceFactEmail_env_guard_and_fallback.2 envFull reqNoRecipient true true
      (some "S") true "d" "team@example.com" rfl rfl⟩

/-- C6 counterexample: when the provider does return a first candidate but its
text is the empty string, the analyze endpoint answers with the fallback, not
with the candidate text, so the answer does not equal the text of the first
candidate as the claim states. -/
theorem analyzeRoute_empty_text_fallback :
    firstCandidateText [emptyTextCandidate] = some "" ∧
    (analyzeRoute (some "k") (some deadlineTranscript) (some deadlineQuestion)
      true [emptyTextCandidate]).answer = some "No answer generated" ∧
    some "No answer generated" ≠ (some "" : Option String) := by decide

/-- C6 (amended): in the deadline scenario the prompt of the analyze endpoint
contains both turn messages verbatim; the prompt sent to the provider is
exactly that prompt; and the answer is the text of the first candidate when
that text is non-empty, or the literal fallback when the provider returns no
candidate or an empty-text first candidate. -/
theorem analyzeRoute_deadline_scenario (apiKey : String) (hk : apiKey ≠ "") :
    containsSub (analyzePrompt deadlineTranscript deadlineQuestion)
      "What is the deadline?" = true ∧
    containsSub (analyzePrompt deadlineTranscript deadlineQuestion)
      "Next Friday." = true ∧
    (∀ (providerOk : Bool) (cands : List GeminiCandidate),
      (analyzeRoute (some apiKey) (some deadlineTranscript) (some deadlineQuestion)
        providerOk cands).sentPrompt =
          some (analyzePrompt deadlineTranscript deadlineQuestion)) ∧
    (∀ (t : String) (ps : List String) (rest : List GeminiCandidate), t ≠ "" →
      (analyzeRoute (some apiKey) (some deadlineTranscript) (some deadlineQuestion)
        true (⟨t :: ps⟩ :: rest)).answer = some t) ∧
    (∀ (ps : List String) (rest : List GeminiCandidate),
      (analyzeRoute (some apiKey) (some deadlineTranscript) (some deadlineQuestion)
        true (⟨"" :: ps⟩ :: rest)).answer = some "No answer generated") ∧
    (analyzeRoute (some apiKey) (some deadlineTranscript) (some deadlineQuestion)
      true []).answer = some "No answer generated" := by
  refine ⟨by decide, by decide, ?_, ?_, ?_, ?_⟩
  · intro providerOk cands
    cases providerOk <;>
      simp [analyzeRoute, jsTruthyStr, hk, deadlineQuestion]
  · intro t ps rest ht
    simp [analyzeRoute, jsTruthyStr, hk, deadlineQuestion, firstCandidateText, jsOr, ht]
  · intro ps rest
    simp [analyzeRoute, jsTruthyStr, hk, deadlineQuestion, firstCandidateText, jsOr]
  · simp [analyzeRoute, jsTruthyStr, hk, deadlineQuestion, firstCandidateText, jsOr]

/-- C6 witness: the deadline scenario theorem at a concrete API key. -/
theorem analyzeRoute_deadline_scenario_witness :
    containsSub (analyzePrompt deadlineTranscript deadlineQuestion)
      "What is the deadline?" = true ∧
    containsSub (analyzePrompt deadlineTranscript deadlineQuestion)
      "Next Friday." = true ∧
    (∀ (providerOk : Bool) (cands : List GeminiCandidate),
      (analyzeRoute (some "k") (some deadlineTranscript) (some deadlineQuestion)
        providerOk cands).sentPrompt =
          some (analyzePrompt deadlineTranscript deadlineQuestion)) ∧
    (∀ (t : String) (ps : List String) (rest : List GeminiCandidate), t ≠ "" →
      (analyzeRoute (some "k") (some deadlineTranscript) (some deadlineQuestion)
        true (⟨t :: ps⟩ :: rest)).answer = some t) ∧
    (∀ (ps : List String) (rest : List GeminiCandidate),
      (analyzeRoute (some "k") (some deadlineTranscript) (some deadlineQuestion)
        true (⟨"" :: ps⟩ :: rest)).answer = some "No answer generated") ∧
    (analyzeRoute (some "k") (some deadlineTranscript) (some deadlineQuestion)
      true []).answer = some "No answer generated" :=
  analyzeRoute_deadline_scenario "k" (by decide)

/-- C7 counterexample: when the provider does return a first candidate but its
text is the empty string, the generate-summary endpoint returns the fallback,
not the candidate text, so the result does not equal the first-candidate text
as the claim states. -/
theorem generateSummaryRoute_empty_text_fallback :
    firstCandidateText [emptyTextCandidate] = some "" ∧
    (generateSummaryRoute (some "k") (some []) true [emptyTextCandidate]).summary =
      some "No summary generated" ∧
    some "No summary generated" ≠ (some "" : Option String) := by decide

/-- C7 (amended): with a configured API key, the generate-summary endpoint on
an empty transcript array never returns the 400 transcript-required error,
always issues the provider request, and returns the first candidate text when
it is non-empty, or the literal fallback when the provider returns no
candidate or an empty-text first candidate. -/
theorem generateSummaryRoute_empty_transcript (apiKey : String) (hk : apiKey ≠ "") :
    (∀ (providerOk : Bool) (cands : List GeminiCandidate),
      (generateSummaryRoute (some apiKey) (some []) providerOk cands).status ≠ 400 ∧
      (generateSummaryRoute (some apiKey) (some []) providerOk cands).error ≠
        some "Transcript is required" ∧
      (generateSummaryRoute (some apiKey) (some []) providerOk cands).sentPrompt =
        some (summaryPrompt [])) ∧
    (∀ (t : String) (ps : List String) (rest : List GeminiCandidate), t ≠ "" →
      (generateSummaryRoute (some apiKey) (some []) true (⟨t :: ps⟩ :: rest)).summary =
        some t) ∧
    (∀ (ps : List String) (rest : List GeminiCandidate),
      (generateSummaryRoute (some apiKey) (some []) true (⟨"" :: ps⟩ :: rest)).summary =
        some "No summary generated") ∧
    (generateSummaryRoute (some apiKey) (some []) true []).summary =
      some "No summary generated" := by
  refine ⟨?_, ?_, ?_, ?_⟩
  · intro providerOk cands
    cases providerOk <;> simp [generateSummaryRoute, jsTruthyStr, hk]
  · intro t ps rest ht
    simp [generateSummaryRoute, jsTruthyStr, hk, firstCandidateText, jsOr, ht]
  · intro ps rest
    simp [generateSummaryRoute, jsTruthyStr, hk, firstCandidateText, jsOr]
  · simp [generateSummaryRoute, jsTruthyStr, hk, firstCandidateText, jsOr]

/-- C7 witness: the empty-transcript theorem at a concrete API key. -/
theorem generateSummaryRoute_empty_transcript_witness :
    (∀ (providerOk : Bool) (cands : List GeminiCandidate),
      (generateSummaryRoute (some "k") (some []) providerOk cands).status ≠ 400 ∧
      (generateSummaryRoute (some "k") (some []) providerOk cands).error ≠
        some "Transcript is required" ∧
      (generateSummaryRoute (some "k") (some []) providerOk cands).sentPrompt =
        some (summaryPrompt [])) ∧
    (∀ (t : String) (ps : List String) (rest : List GeminiCandidate), t ≠ "" →
      (generateSummaryRoute (some "k") (some []) true (⟨t :: ps⟩ :: rest)).summary =
        some t) ∧
    (∀ (ps : List String) (rest : List GeminiCandidate),
      (generateSummaryRoute (some "k") (some []) true (⟨"" :: ps⟩ :: rest)).summary =
        some "No summary generated") ∧
    (generateSummaryRoute (some "k") (some []) true []).summary =
      some "No summary generated" :=
  generateSummaryRoute_empty_transcript "k" (by decide)

/-- C9: the matei email endpoint never reads the request recipient: two
requests differing only in that field produce identical outcomes; and every
email submission is addressed to the EMAIL_RECIPIENTS environment value, which
is also the recipient field of a success response. -/
theorem mateiSpaceFactEmail_recipient_noninterference :
    (∀ (env : EmailEnv) (req₁ req₂ : SpaceFactRequest) (geminiOk : Bool)
        (cands : List GeminiCandidate) (mailgunOk : Bool) (ts : String),
      req₁.conversationId = req₂.conversationId →
      mateiSpaceFactEmail env req₁ geminiOk cands mailgunOk ts =
        mateiSpaceFactEmail env req₂ geminiOk cands mailgunOk ts) ∧
    (∀ (env : EmailEnv) (req : SpaceFactRequest) (geminiOk : Bool)
        (cands : List GeminiCandidate) (mailgunOk : Bool) (ts : String) (r : String),
      env.EMAIL_RECIPIENTS = some r →
      (∀ m ∈ (mateiSpaceFactEmail env req geminiOk cands mailgunOk ts).sent,
        m.toAddress = r) ∧
      ((mateiSpaceFactEmail env req geminiOk cands mailgunOk ts).status = 200 →
        (mateiSpaceFactEmail env req geminiOk cands mailgunOk ts).recipient = some r)) := by
  constructor
  · intro env req₁ req₂ geminiOk cands mailgunOk ts h
    obtain ⟨c₁, r₁⟩ := req₁
    obtain ⟨c₂, r₂⟩ := req₂
    have h2 : c₁ = c₂ := h
    subst h2
    rfl
  · intro env req geminiOk cands mailgunOk ts r hr
    by_cases hg : (!(jsTruthyStr env.GEMINI_API_KEY) || !(jsTruthyStr env.MAILGUN_API_KEY) ||
        !(jsTruthyStr env.EMAIL_RECIPIENTS)) = true
    · simp [mateiSpaceFactEmail, hg]
    · cases geminiOk <;> cases mailgunOk <;>
        simp_all [mateiSpaceFactEmail, hr, Option.getD]

/-- C9 witness: the noninterference theorem at concrete requests differing only
in the recipient field. -/
theorem mateiSpaceFactEmail_recipient_noninterference_witness :
    (mateiSpaceFactEmail envFull reqNoRecipient true [] true "t" =
      mateiSpaceFactEmail envFull reqWithRecipient true [] true "t") ∧
    ((∀ m ∈ (mateiSpaceFactEmail envFull reqWithRecipient true [] true "t").sent,
        m.toAddress = "team@example.com") ∧
      ((mateiSpaceFactEmail envFull reqWithRecipient true [] true "t").status = 200 →
        (mateiSpaceFactEmail envFull reqWithRecipient true [] true "t").recipient =
          some "team@example.com")) :=
  ⟨mateiSpaceFactEmail_recipient_noninterference.1 envFull reqNoRecipient reqWithRecipient
      true [] true "t" rfl,
    mateiSpaceFactEmail_recipient_noninterference.2 envFull reqWithRecipient true [] true
      "t" "team@example.com" rfl⟩

/-- C10: on a successful provider call with an empty candidate list the
gemini-template endpoint returns a 500 with the failed-to-generate-template
error and no analysis text, while the analyze and generate-summary endpoints
return a 200 with their fixed fallback strings in the same situation. -/
theorem geminiTemplateRoute_empty_candidates (dc apiKey : String)
    (hdc : dc ≠ "") (hk : apiKey ≠ "") :
    (geminiTemplateRoute (some dc) (some apiKey) true []).status = 500 ∧
    (geminiTemplateRoute (some dc) (some apiKey) true []).error =
      some "Failed to generate template" ∧
    (geminiTemplateRoute (some dc) (some apiKey) true []).analysis = none ∧
    (analyzeRoute (some apiKey) (some deadlineTranscript) (some deadlineQuestion)
      true []).status = 200 ∧
    (analyzeRoute (some apiKey) (some deadlineTranscript) (some deadlineQuestion)
      true []).answer = some "No answer generated" ∧
    (generateSummaryRoute (some apiKey) (some []) true []).status = 200 ∧
    (generateSummaryRoute (some apiKey) (some []) true []).summary =
      some "No summary generated" := by
  refine ⟨?_, ?_, ?_, ?_, ?_, ?_, ?_⟩ <;>
    simp [geminiTemplateRoute, analyzeRoute, generateSummaryRoute, jsTruthyStr,
      hdc, hk, deadlineQuestion, firstCandidateText, jsOr]

/-- C10 witness: the empty-candidate contrast theorem at concrete inputs. -/
theorem geminiTemplateRoute_empty_candidates_witness :
    (geminiTemplateRoute (some "content") (some "k") true []).status = 500 ∧
    (geminiTemplateRoute (some "content") (some "k") true []).error =
      some "Failed to generate template" ∧
    (geminiTemplateRoute (some "content") (some "k") true []).analysis = none ∧
    (analyzeRoute (some "k") (some deadlineTranscript) (some deadlineQuestion)
      true []).status = 200 ∧
    (analyzeRoute (some "k") (some deadlineTranscript) (some deadlineQuestion)
      true []).answer = some "No answer generated" ∧
    (generateSummaryRoute (some "k") (some []) true []).status = 200 ∧
    (generateSummaryRoute (some "k") (some []) true []).summary =
      some "No summary generated" :=
  geminiTemplateRoute_empty_candidates "content" "k" (by decide) (by decide)
